import Mathlib

/-!
Verification of the inventory/sales CRUD backend (`app_api`).

The Python handlers in `src/app_api` are shallowly embedded: the relational
store is a record of lists of rows, each HTTP handler becomes a function
`DB → input → Except Err (DB × output)`, and a raised `HTTPException`
becomes an `Except.error` (FastAPI rolls the transaction back on an
exception, so an error leaves the store unchanged; the embedding reflects
this by returning no new `DB` on the error path).  Python `float` and SQL
`DECIMAL` values are modelled as `ℚ`, `datetime` values as a rational
day-key plus time-of-day fraction, and Python's ASCII case operations by
`Char.toUpper` / `Char.toLower`.
-/

/-- A raised `HTTPException`: status code and detail message. -/
structure Err where
  status : Nat
  detail : String
deriving DecidableEq

/-! ### Python string primitives (ASCII model) -/

/-- Python `str.lower()` on a character list. -/
def pyLowerL (cs : List Char) : List Char := cs.map Char.toLower

/-- Python `str.upper()` on a character list. -/
def pyUpperL (cs : List Char) : List Char := cs.map Char.toUpper

/-- Python `str.capitalize()` on a character list: first character
upper-cased, the rest lower-cased. -/
def pyCapitalizeL : List Char → List Char
  | [] => []
  | c :: cs => Char.toUpper c :: cs.map Char.toLower

/-- Python `str.lower()`. -/
def pyLower (s : String) : String := ⟨pyLowerL s.data⟩

/-- Python `str.upper()`. -/
def pyUpper (s : String) : String := ⟨pyUpperL s.data⟩

/-- Python `str.capitalize()`. -/
def pyCapitalize (s : String) : String := ⟨pyCapitalizeL s.data⟩

/-- SQL `col ILIKE '%term%'`: case-insensitive substring containment. -/
def ilike (hay term : String) : Bool :=
  decide (List.IsInfix (pyLowerL term.data) (pyLowerL hay.data))

/-- Python truthiness of an optional string (`if s:`): `None` and `""` are
falsy. -/
def truthyStr : Option String → Bool
  | none => false
  | some s => s ≠ ""

/-- Python truthiness of an optional integer (`if n:`): `None` and `0` are
falsy. -/
def truthyNat : Option Nat → Bool
  | none => false
  | some n => n ≠ 0

/-! ### Characterizing `Char.toUpper` / `Char.toLower` on single letters -/

theorem char_toNat_ofNat_of_lt {n : Nat} (h : n < 55296) :
    (Char.ofNat n).toNat = n := by
  have hv : n.isValidChar := Or.inl h
  rw [Char.ofNat, dif_pos hv]
  rfl

theorem char_eq_of_toNat_eq {c : Char} {n : Nat} (h : c.toNat = n) :
    c = Char.ofNat n := by
  rw [← h, Char.ofNat_toNat]

theorem char_toUpper_def (c : Char) :
    c.toUpper = if 97 ≤ c.toNat ∧ c.toNat ≤ 122 then
      Char.ofNat (c.toNat - 32) else c := rfl

theorem char_toLower_def (c : Char) :
    c.toLower = if 65 ≤ c.toNat ∧ c.toNat ≤ 90 then
      Char.ofNat (c.toNat + 32) else c := rfl

/-- `Char.toUpper c` equals an ASCII upper-case letter `u` exactly when `c`
is `u` itself or its lower-case counterpart. -/
theorem toUpper_eq_upper_iff (c u l : Char)
    (hu : 65 ≤ u.toNat ∧ u.toNat ≤ 90) (hl : l.toNat = u.toNat + 32) :
    c.toUpper = u ↔ (c = l ∨ c = u) := by
  rw [char_toUpper_def]
  by_cases hc : 97 ≤ c.toNat ∧ c.toNat ≤ 122
  · rw [if_pos hc]
    have h32 : (Char.ofNat (c.toNat - 32)).toNat = c.toNat - 32 :=
      char_toNat_ofNat_of_lt (by omega)
    constructor
    · intro h
      have h2 := congrArg Char.toNat h
      rw [h32] at h2
      left
      have hcl : c.toNat = l.toNat := by omega
      rw [char_eq_of_toNat_eq hcl, Char.ofNat_toNat]
    · rintro (rfl | rfl)
      · have hsub : c.toNat - 32 = u.toNat := by omega
        rw [hsub]
        exact Char.ofNat_toNat u
      · omega
  · rw [if_neg hc]
    constructor
    · intro h
      right; exact h
    · rintro (rfl | rfl)
      · omega
      · rfl

/-- `Char.toLower c` equals an ASCII lower-case letter `l` exactly when `c`
is `l` itself or its upper-case counterpart. -/
theorem toLower_eq_lower_iff (c u l : Char)
    (hu : 65 ≤ u.toNat ∧ u.toNat ≤ 90) (hl : l.toNat = u.toNat + 32) :
    c.toLower = l ↔ (c = l ∨ c = u) := by
  rw [char_toLower_def]
  by_cases hc : 65 ≤ c.toNat ∧ c.toNat ≤ 90
  · rw [if_pos hc]
    have h32 : (Char.ofNat (c.toNat + 32)).toNat = c.toNat + 32 :=
      char_toNat_ofNat_of_lt (by omega)
    constructor
    · intro h
      have h2 := congrArg Char.toNat h
      rw [h32] at h2
      right
      have hcu : c.toNat = u.toNat := by omega
      rw [char_eq_of_toNat_eq hcu, Char.ofNat_toNat]
    · rintro (rfl | rfl)
      · omega
      · have hsub : c.toNat + 32 = l.toNat := by omega
        rw [hsub]
        exact Char.ofNat_toNat l
  · rw [if_neg hc]
    constructor
    · intro h
      left; exact h
    · rintro (rfl | rfl)
      · rfl
      · omega

/-- `Char.toLower` never produces an ASCII upper-case letter. -/
theorem toLower_ne_upper (c u : Char) (hu : 65 ≤ u.toNat ∧ u.toNat ≤ 90) :
    c.toLower ≠ u := by
  rw [char_toLower_def]
  by_cases hc : 65 ≤ c.toNat ∧ c.toNat ≤ 90
  · rw [if_pos hc]
    intro h
    have h32 : (Char.ofNat (c.toNat + 32)).toNat = c.toNat + 32 :=
      char_toNat_ofNat_of_lt (by omega)
    have h2 := congrArg Char.toNat h
    rw [h32] at h2
    omega
  · rw [if_neg hc]
    intro h
    have h2 := congrArg Char.toNat h
    omega

/-! ### Data model (`src/app_api/models/sqlalchemy_models.py`) -/

/-- Row of table `category`. -/
structure CategoryRow where
  category_id : Nat
  name : String
deriving DecidableEq

/-- Row of table `product`. -/
structure ProductRow where
  product_id : Nat
  name : String
  category_id : Option Nat
  sku : Option String
  price : ℚ
  reorder_level : Int
deriving DecidableEq

/-- Row of table `sale`. -/
structure SaleRow where
  sale_id : Nat
  sale_datetime : ℚ
  total_amount : ℚ
  payment_method : String
  notes : Option String
deriving DecidableEq

/-- Row of table `sale_item`. -/
structure SaleItemRow where
  sale_item_id : Nat
  sale_id : Nat
  product_id : Nat
  quantity : Int
  unit_price : ℚ
  discount : ℚ
deriving DecidableEq

/-- Row of table `stock_in`. -/
structure StockInRow where
  stock_in_id : Nat
  ref_no : Option String
  stock_in_date : ℚ
  total_cost : ℚ
  notes : Option String
deriving DecidableEq

/-- Row of table `stock_in_item`. -/
structure StockInItemRow where
  stock_in_item_id : Nat
  stock_in_id : Nat
  product_id : Nat
  quantity : Int
  unit_cost : ℚ
deriving DecidableEq

/-- Row of table `inventory_movement`. -/
structure MovementRow where
  movement_id : Nat
  product_id : Nat
  movement_type : String
  quantity : Int
  unit_cost : Option ℚ
  sale_price : Option ℚ
  sale_item_id : Option Nat
  stock_in_item_id : Option Nat
  movement_date : ℚ
deriving DecidableEq

/-- Row of the external view `v_profitability_report`. -/
structure ProfitRow where
  sale_item_id : Nat
  sale_id : Nat
  sale_datetime : ℚ
  product_id : Nat
  product_name : String
  quantity : Int
  unit_price : ℚ
  discount : ℚ
  total_revenue : ℚ
  average_cost_at_sale : ℚ
  total_cogs : ℚ
  gross_profit : ℚ
deriving DecidableEq

/-- The relational store: tables as lists of rows plus auto-increment
counters.  `profit_view` holds the contents of the externally maintained
`v_profitability_report` view. -/
structure DB where
  categories : List CategoryRow := []
  products : List ProductRow := []
  sales : List SaleRow := []
  sale_items : List SaleItemRow := []
  stock_ins : List StockInRow := []
  stock_in_items : List StockInItemRow := []
  movements : List MovementRow := []
  profit_view : List ProfitRow := []
  next_sale_id : Nat := 1
  next_sale_item_id : Nat := 1
  next_stock_in_id : Nat := 1
  next_stock_in_item_id : Nat := 1
  next_product_id : Nat := 1
deriving DecidableEq

/-- `db.query(ProductDB).filter(product_id == pid).first()`. -/
def findProduct (db : DB) (pid : Nat) : Option ProductRow :=
  db.products.find? (fun p => p.product_id == pid)

/-- `db.query(CategoryDB).filter(category_id == cid).first()`. -/
def findCategory (db : DB) (cid : Nat) : Option CategoryRow :=
  db.categories.find? (fun c => c.category_id == cid)

/-- `db.query(SaleDB).filter(sale_id == sid).first()`. -/
def findSale (db : DB) (sid : Nat) : Option SaleRow :=
  db.sales.find? (fun s => s.sale_id == sid)

/-- `db.query(InventoryMovementDB).filter(movement_id == mid).first()`. -/
def findMovement (db : DB) (mid : Nat) : Option MovementRow :=
  db.movements.find? (fun m => m.movement_id == mid)

/-! ### Pagination (shared shape of every list endpoint) -/

/-- The `PaginatedResponse` envelope
(`src/app_api/models/response_models.py`). -/
structure Paginated (α : Type) where
  items : List α
  total : Nat
  page : Nat
  limit : Nat
  total_pages : Nat
  has_next : Bool
  has_prev : Bool
deriving DecidableEq

/-- The pagination logic every list handler repeats:
`total = query.count()` before pagination, the page slice via
`offset((page-1)*limit).limit(limit)`, `total_pages = (total+limit-1)//limit`,
`has_next = page < total_pages`, `has_prev = page > 1`. -/
def paginate {α : Type} (rows : List α) (page limit : Nat) : Paginated α :=
  { items := (rows.drop ((page - 1) * limit)).take limit
    total := rows.length
    page := page
    limit := limit
    total_pages := (rows.length + limit - 1) / limit
    has_next := decide (page < (rows.length + limit - 1) / limit)
    has_prev := decide (1 < page) }

/-- Ascending stable insertion sort by a `Nat` key (models
`order_by(col asc)`). -/
def insertByKey {α : Type} (key : α → Nat) (x : α) : List α → List α
  | [] => [x]
  | y :: ys => if key x < key y then x :: y :: ys else y :: insertByKey key x ys

/-- Stable sort by a `Nat` key, ascending. -/
def sortByKey {α : Type} (key : α → Nat) : List α → List α
  | [] => []
  | x :: xs => insertByKey key x (sortByKey key xs)

/-! ### Request models (`src/app_api/models/request_models.py`) -/

/-- `SaleItemCreate`: `unit_price` is optional, `discount` defaults to 0 at
parse time. -/
structure SaleItemCreate where
  product_id : Nat
  quantity : Int
  unit_price : Option ℚ
  discount : ℚ
deriving DecidableEq

/-- `SaleCreate`. -/
structure SaleCreate where
  sale_datetime : Option ℚ
  payment_method : String
  notes : Option String
  items : List SaleItemCreate
deriving DecidableEq

/-- `StockInItemCreate`. -/
structure StockInItemCreate where
  product_id : Nat
  quantity : Int
  unit_cost : ℚ
deriving DecidableEq

/-- `StockInCreate`. -/
structure StockInCreate where
  stock_in_date : Option ℚ
  ref_no : Option String
  notes : Option String
  items : List StockInItemCreate
deriving DecidableEq

/-! ### Sales handler (`src/app_api/routers/sales.py`) -/

/-- Payment-method normalization at the top of `create_sale`
(sales.py lines 20-24): `capitalize()`, special-case `"Qr" → "QR"`, then
membership check against `['Cash', 'Card', 'QR']`. -/
def normalizePaymentMethod (s : String) : Except Err String :=
  let pm0 := pyCapitalize s
  let pm := if pm0 = "Qr" then "QR" else pm0
  if pm = "Cash" ∨ pm = "Card" ∨ pm = "QR" then .ok pm
  else .error ⟨400, "วิธีการชำระเงินไม่ถูกต้อง"⟩

/-- The per-item loop of `create_sale` (sales.py lines 36-58): for each
item, the referenced product must exist (404 otherwise) and `unit_price`
defaults to the product's current price.  Note there is no duplicate-product
check in this loop. -/
def buildSaleItems (db : DB) (sid : Nat) (nextId : Nat) :
    List SaleItemCreate → Except Err (List SaleItemRow)
  | [] => .ok []
  | it :: rest =>
    match findProduct db it.product_id with
    | none =>
        .error ⟨404, "Product with ID " ++ toString it.product_id ++ " not found."⟩
    | some p =>
        let row : SaleItemRow :=
          { sale_item_id := nextId
            sale_id := sid
            product_id := it.product_id
            quantity := it.quantity
            unit_price := it.unit_price.getD p.price
            discount := it.discount }
        match buildSaleItems db sid (nextId + 1) rest with
        | .error e => .error e
        | .ok rows => .ok (row :: rows)

/-- `POST /sales/` (`create_sale`).  `now` stands for the database's
`current_timestamp()` used when `sale_datetime` is absent; `total_amount`
is inserted as 0 (recomputed by an external trigger). -/
def create_sale (db : DB) (now : ℚ) (inp : SaleCreate) :
    Except Err (DB × SaleRow) :=
  match normalizePaymentMethod inp.payment_method with
  | .error e => .error e
  | .ok pm =>
    let sale : SaleRow :=
      { sale_id := db.next_sale_id
        sale_datetime := inp.sale_datetime.getD now
        total_amount := 0
        payment_method := pm
        notes := inp.notes }
    match buildSaleItems db sale.sale_id db.next_sale_item_id inp.items with
    | .error e => .error e
    | .ok rows =>
        .ok ({ db with
                sales := db.sales ++ [sale]
                sale_items := db.sale_items ++ rows
                next_sale_id := db.next_sale_id + 1
                next_sale_item_id := db.next_sale_item_id + rows.length },
             sale)

/-- `POST /sales/{sale_id}/items` (`add_sale_item`): sale must exist (404),
product must exist (404), the product must not already be present in the
sale (400), and `unit_price` defaults to the product's current price. -/
def add_sale_item (db : DB) (sale_id : Nat) (item : SaleItemCreate) :
    Except Err (DB × SaleItemRow) :=
  match findSale db sale_id with
  | none => .error ⟨404, "ไม่พบรายการขายนี้"⟩
  | some _ =>
    match findProduct db item.product_id with
    | none => .error ⟨404, "ไม่พบสินค้า ID " ++ toString item.product_id⟩
    | some product =>
      match db.sale_items.find?
          (fun si => si.sale_id == sale_id && si.product_id == item.product_id) with
      | some _ =>
          .error ⟨400, "สินค้า ID " ++ toString item.product_id ++ " มีอยู่แล้วในรายการขายนี้"⟩
      | none =>
        let row : SaleItemRow :=
          { sale_item_id := db.next_sale_item_id
            sale_id := sale_id
            product_id := item.product_id
            quantity := item.quantity
            unit_price := item.unit_price.getD product.price
            discount := item.discount }
        .ok ({ db with
                sale_items := db.sale_items ++ [row]
                next_sale_item_id := db.next_sale_item_id + 1 },
             row)

/-! ### Stock-in handler (`src/app_api/routers/stocks.py`) -/

/-- The pre-validation loop of `create_stock_in` (stocks.py lines 18-27):
every item's product is checked for existence before anything is inserted;
the first missing product yields the 404. -/
def validateStockInProducts (db : DB) : List StockInItemCreate → Option Err
  | [] => none
  | it :: rest =>
    if (findProduct db it.product_id).isNone then
      some ⟨404, "ไม่พบสินค้า ID: " ++ toString it.product_id⟩
    else validateStockInProducts db rest

/-- `POST /stock-in/` (`create_stock_in`): validate all products first,
then insert the `stock_in` row (total_cost 0, recomputed externally) and
all item rows. -/
def create_stock_in (db : DB) (now : ℚ) (inp : StockInCreate) :
    Except Err (DB × StockInRow) :=
  match validateStockInProducts db inp.items with
  | some e => .error e
  | none =>
    let si : StockInRow :=
      { stock_in_id := db.next_stock_in_id
        ref_no := inp.ref_no
        stock_in_date := inp.stock_in_date.getD now
        total_cost := 0
        notes := inp.notes }
    let rows := (List.range inp.items.length).zip inp.items |>.map
      (fun p =>
        { stock_in_item_id := db.next_stock_in_item_id + p.1
          stock_in_id := si.stock_in_id
          product_id := p.2.product_id
          quantity := p.2.quantity
          unit_cost := p.2.unit_cost : StockInItemRow })
    .ok ({ db with
            stock_ins := db.stock_ins ++ [si]
            stock_in_items := db.stock_in_items ++ rows
            next_stock_in_id := db.next_stock_in_id + 1
            next_stock_in_item_id := db.next_stock_in_item_id + rows.length },
         si)

/-! ### Products handler (`src/app_api/routers/products.py`) -/

/-- Wire form of a product-creation request: `category_id`, `sku` and
`reorder_level` may be omitted. -/
structure ProductCreateInput where
  name : String
  category_id : Option Nat
  sku : Option String
  price : ℚ
  reorder_level : Option Int
deriving DecidableEq

/-- The validated `ProductCreate` pydantic model. -/
structure ProductCreate where
  name : String
  category_id : Option Nat
  sku : Option String
  price : ℚ
  reorder_level : Int
deriving DecidableEq

/-- Parsing a creation request through the `ProductCreate` pydantic model
(request_models.py lines 8-13): `reorder_level` defaults to 10.  The model
declares `price: float` with no constraint, so no value of `price` is
rejected. -/
def parseProductCreate (inp : ProductCreateInput) : ProductCreate :=
  { name := inp.name
    category_id := inp.category_id
    sku := inp.sku
    price := inp.price
    reorder_level := inp.reorder_level.getD 10 }

/-- `POST /products/` (`create_product`): optional category existence check
(400), optional SKU uniqueness check (400, only when `sku` is truthy), then
insert.  The handler performs no check on `price`. -/
def create_product (db : DB) (p : ProductCreate) :
    Except Err (DB × ProductRow) :=
  match p.category_id with
  | some cid =>
    if (findCategory db cid).isNone then
      .error ⟨400, "ไม่พบหมวดหมู่ ID: " ++ toString cid⟩
    else create_product_skuCheck db p
  | none => create_product_skuCheck db p
where
  create_product_skuCheck (db : DB) (p : ProductCreate) :
      Except Err (DB × ProductRow) :=
    if truthyStr p.sku ∧
        (db.products.find? (fun q => q.sku == p.sku)).isSome then
      .error ⟨400, "มีสินค้าที่มี SKU '" ++ (p.sku.getD "") ++ "' นี้อยู่แล้ว"⟩
    else
      let row : ProductRow :=
        { product_id := db.next_product_id
          name := p.name
          category_id := p.category_id
          sku := p.sku
          price := p.price
          reorder_level := p.reorder_level }
      .ok ({ db with
              products := db.products ++ [row]
              next_product_id := db.next_product_id + 1 },
           row)

/-! ### Category and product list endpoints
(`src/app_api/routers/categories.py`, `products.py`) -/

/-- `CategorySearchParams`: pagination plus optional name search. -/
structure CategorySearchParams where
  page : Nat
  limit : Nat
  search : Option String
deriving DecidableEq

/-- `ProductSearchParams`. -/
structure ProductSearchParams where
  page : Nat
  limit : Nat
  search : Option String
  category_id : Option Nat
  min_price : Option ℚ
  max_price : Option ℚ
deriving DecidableEq

/-- The filtered category query of `get_all_categories` (categories.py
lines 41-46): optional case-insensitive substring filter on `name`
(applied only when the search string is truthy). -/
def categoryFilteredRows (db : DB) (search : Option String) : List CategoryRow :=
  if truthyStr search then
    db.categories.filter (fun c => ilike c.name (search.getD ""))
  else db.categories

/-- The category rows after `order_by(category_id)`. -/
def categoryOrderedRows (db : DB) (search : Option String) : List CategoryRow :=
  sortByKey (fun c => c.category_id) (categoryFilteredRows db search)

/-- The page slice returned by `offset((page-1)*limit).limit(limit)` in
`get_all_categories`. -/
def categorySlice (db : DB) (p : CategorySearchParams) : List CategoryRow :=
  ((categoryOrderedRows db p.search).drop ((p.page - 1) * p.limit)).take p.limit

/-- `GET /categories/` (`get_all_categories`): 404 when the page slice is
empty and the page is 1, else the pagination envelope. -/
def get_all_categories (db : DB) (p : CategorySearchParams) :
    Except Err (Paginated CategoryRow) :=
  let env := paginate (categoryOrderedRows db p.search) p.page p.limit
  if env.items.isEmpty ∧ p.page = 1 then
    .error ⟨404, "ไม่พบหมวดหมู่"⟩
  else .ok env

/-- The filtered product query of `get_all_products` (products.py lines
49-69): substring search on name OR sku, truthy `category_id` equality
filter, `min_price`/`max_price` range filters (applied whenever not None). -/
def productFilteredRows (db : DB) (p : ProductSearchParams) : List ProductRow :=
  let r0 := db.products
  let r1 := if truthyStr p.search then
      r0.filter (fun q =>
        ilike q.name (p.search.getD "") ||
        (match q.sku with
         | some sk => ilike sk (p.search.getD "")
         | none => false))
    else r0
  let r2 := if truthyNat p.category_id then
      r1.filter (fun q => q.category_id == some (p.category_id.getD 0))
    else r1
  let r3 := match p.min_price with
    | some m => r2.filter (fun q => decide (m ≤ q.price))
    | none => r2
  match p.max_price with
  | some m => r3.filter (fun q => decide (q.price ≤ m))
  | none => r3

/-- The product rows after `order_by(product_id)`. -/
def productOrderedRows (db : DB) (p : ProductSearchParams) : List ProductRow :=
  sortByKey (fun q => q.product_id) (productFilteredRows db p)

/-- The page slice of `get_all_products`. -/
def productSlice (db : DB) (p : ProductSearchParams) : List ProductRow :=
  ((productOrderedRows db p).drop ((p.page - 1) * p.limit)).take p.limit

/-- `GET /products/` (`get_all_products`). -/
def get_all_products (db : DB) (p : ProductSearchParams) :
    Except Err (Paginated ProductRow) :=
  let env := paginate (productOrderedRows db p) p.page p.limit
  if env.items.isEmpty ∧ p.page = 1 then
    .error ⟨404, "ไม่พบสินค้า"⟩
  else .ok env

/-! ### Inventory movements handler (`src/app_api/routers/inventories.py`) -/

/-- The fixed error of an invalid `movement_type` (inventories.py lines
127-130); the joined set is written in insertion order. -/
def movementTypeErr : Err :=
  ⟨400, "ประเภท movement_type ไม่ถูกต้อง ค่าที่อนุญาตคือ: OPENING, STOCK_IN, SALE"⟩

/-- The allowed movement types. -/
def allowedMovementTypes : List String := ["OPENING", "STOCK_IN", "SALE"]

/-- `PATCH /inventory-movements/{movement_id}`
(`update_inventory_movement_type`): 404 when the movement is absent; when
the supplied `movement_type` is truthy it is validated upper-cased against
the enum (400 on failure) and stored upper-cased; a falsy `movement_type`
(absent, `None` or `""`) skips the whole block and commits no change.
`InventoryMovementUpdate` (request_models.py lines 66-67) makes the field
optional. -/
def update_inventory_movement_type (db : DB) (movement_id : Nat)
    (movement_type : Option String) : Except Err (DB × MovementRow) :=
  match findMovement db movement_id with
  | none =>
      .error ⟨404, "ไม่พบข้อมูลการเคลื่อนไหวสินค้าที่มี ID " ++ toString movement_id⟩
  | some mv =>
    if truthyStr movement_type then
      let u := pyUpper (movement_type.getD "")
      if u ∈ allowedMovementTypes then
        let mv' := { mv with movement_type := u }
        .ok ({ db with
                movements := db.movements.map
                  (fun m => if m.movement_id == movement_id then mv' else m) },
             mv')
      else .error movementTypeErr
    else .ok (db, mv)

/-! ### Date parsing and the profitability summary
(`src/app_api/routers/report.py`) -/

/-- Whether `y` is a Gregorian leap year. -/
def isLeapYear (y : Nat) : Bool :=
  y % 4 == 0 && (y % 100 != 0 || y % 400 == 0)

/-- Number of days of month `m` in year `y`. -/
def daysInMonth (y m : Nat) : Nat :=
  if m = 2 then (if isLeapYear y then 29 else 28)
  else if m = 4 ∨ m = 6 ∨ m = 9 ∨ m = 11 then 30
  else 31

/-- `datetime.strptime(s, "%Y-%m-%d")`: a 4-digit year, a 1-2 digit month
in 1..12 and a 1-2 digit day valid for that month. -/
def parseDateYMD (s : String) : Option (Nat × Nat × Nat) :=
  match s.splitOn "-" with
  | [ys, ms, ds] =>
    match ys.toNat?, ms.toNat?, ds.toNat? with
    | some y, some m, some d =>
      if ys.length = 4 ∧ 1 ≤ ms.length ∧ ms.length ≤ 2 ∧
          1 ≤ ds.length ∧ ds.length ≤ 2 ∧
          1 ≤ m ∧ m ≤ 12 ∧ 1 ≤ d ∧ d ≤ daysInMonth y m then
        some (y, m, d)
      else none
    | _, _, _ => none
  | _ => none

/-- A `datetime` is modelled as day-key `y*10000 + m*100 + d` plus a
time-of-day fraction in `[0, 1)`; this is the key of a date at midnight. -/
def dateKey (y m d : Nat) : ℚ := ((y * 10000 + m * 100 + d : Nat) : ℚ)

/-- `datetime.max.time()` (23:59:59.999999) as a fraction of a day. -/
def endOfDayFrac : ℚ := 86399999999 / 86400000000

/-- The fixed 400 for a malformed date string. -/
def dateFormatErr : Err := ⟨400, "รูปแบบวันที่ไม่ถูกต้อง ใช้ YYYY-MM-DD"⟩

/-- The `start_date` filter step of `get_profitability_summary` (report.py
lines 189-194): skipped when falsy, 400 when unparsable, else keep rows
with `sale_datetime >= start`. -/
def applyStartDateFilter (rows : List ProfitRow) (sd : Option String) :
    Except Err (List ProfitRow) :=
  match sd with
  | none => .ok rows
  | some s =>
    if s = "" then .ok rows
    else match parseDateYMD s with
      | none => .error dateFormatErr
      | some (y, m, d) =>
          .ok (rows.filter (fun r => decide (dateKey y m d ≤ r.sale_datetime)))

/-- The `end_date` filter step (report.py lines 196-202): the end date is
extended to `datetime.max.time()` of that day. -/
def applyEndDateFilter (rows : List ProfitRow) (ed : Option String) :
    Except Err (List ProfitRow) :=
  match ed with
  | none => .ok rows
  | some s =>
    if s = "" then .ok rows
    else match parseDateYMD s with
      | none => .error dateFormatErr
      | some (y, m, d) =>
          .ok (rows.filter
            (fun r => decide (r.sale_datetime ≤ dateKey y m d + endOfDayFrac)))

/-- The filtered `v_profitability_report` rows the summary aggregates. -/
def profitFilteredRows (db : DB) (sd ed : Option String) :
    Except Err (List ProfitRow) :=
  match applyStartDateFilter db.profit_view sd with
  | .error e => .error e
  | .ok rows => applyEndDateFilter rows ed

/-- Python 3 `round(x, 2)`: round half to even at two decimals. -/
def pyRound2 (x : ℚ) : ℚ :=
  let y := x * 100
  let f : ℤ := ⌊y⌋
  let frac := y - (f : ℚ)
  let n : ℤ :=
    if frac < 1 / 2 then f
    else if 1 / 2 < frac then f + 1
    else if f % 2 = 0 then f else f + 1
  (n : ℚ) / 100

/-- An entry of `top_profitable_products`. -/
structure TopProduct where
  name : String
  total_profit : ℚ
deriving DecidableEq

/-- The `ProfitabilitySummary` response model. -/
structure ProfitabilitySummary where
  total_sales : Nat
  total_revenue : ℚ
  total_cogs : ℚ
  total_gross_profit : ℚ
  average_profit_margin : ℚ
  top_profitable_products : Option (List TopProduct)
deriving DecidableEq

/-- Distinct `(product_id, product_name)` group keys in first-occurrence
order (the `group_by` of the top-products query). -/
def profitGroupKeys (rows : List ProfitRow) : List (Nat × String) :=
  rows.foldl
    (fun acc r =>
      if (r.product_id, r.product_name) ∈ acc then acc
      else acc ++ [(r.product_id, r.product_name)]) []

/-- Summed gross profit of one group. -/
def groupProfit (rows : List ProfitRow) (k : Nat × String) : ℚ :=
  ((rows.filter (fun r => r.product_id == k.1 && r.product_name == k.2)).map
    (fun r => r.gross_profit)).sum

/-- Descending stable insertion by summed profit. -/
def insertByProfitDesc (x : TopProduct) : List TopProduct → List TopProduct
  | [] => [x]
  | y :: ys =>
      if y.total_profit < x.total_profit then x :: y :: ys
      else y :: insertByProfitDesc x ys

/-- Stable sort by summed profit, descending. -/
def sortByProfitDesc : List TopProduct → List TopProduct
  | [] => []
  | x :: xs => insertByProfitDesc x (sortByProfitDesc xs)

/-- The top-3-products query of the summary (report.py lines 228-246). -/
def topProducts (rows : List ProfitRow) : List TopProduct :=
  (sortByProfitDesc ((profitGroupKeys rows).map
    (fun k => { name := k.2, total_profit := groupProfit rows k }))).take 3

/-- `GET /reports/profitability/summary` (`get_profitability_summary`):
zero matching rows short-circuit to an all-zero summary; otherwise the
average margin divides by revenue only under a `revenue > 0` guard. -/
def get_profitability_summary (db : DB) (sd ed : Option String) :
    Except Err ProfitabilitySummary :=
  match profitFilteredRows db sd ed with
  | .error e => .error e
  | .ok rows =>
    if rows.length = 0 then
      .ok { total_sales := 0, total_revenue := 0, total_cogs := 0
            total_gross_profit := 0, average_profit_margin := 0
            top_profitable_products := none }
    else
      let total_revenue := (rows.map (fun r => r.total_revenue)).sum
      let total_cogs := (rows.map (fun r => r.total_cogs)).sum
      let total_gross_profit := (rows.map (fun r => r.gross_profit)).sum
      let margin :=
        if 0 < total_revenue then
          pyRound2 (total_gross_profit / total_revenue * 100)
        else 0
      .ok { total_sales := rows.length
            total_revenue := total_revenue
            total_cogs := total_cogs
            total_gross_profit := total_gross_profit
            average_profit_margin := margin
            top_profitable_products := some (topProducts rows) }

/-! ### Theorems -/

theorem pyCapitalize_eq_cash_iff (s : String) :
    pyCapitalize s = "Cash" ↔ pyLower s = "cash" := by
  obtain ⟨data⟩ := s
  cases data with
  | nil => decide
  | cons c r =>
    rw [show pyCapitalize ⟨c :: r⟩ = ⟨Char.toUpper c :: r.map Char.toLower⟩ from rfl]
    rw [show pyLower ⟨c :: r⟩ = ⟨Char.toLower c :: r.map Char.toLower⟩ from rfl]
    rw [show ("Cash" : String) = ⟨['C', 'a', 's', 'h']⟩ from rfl]
    rw [show ("cash" : String) = ⟨['c', 'a', 's', 'h']⟩ from rfl]
    simp only [String.ext_iff, List.cons.injEq]
    rw [toUpper_eq_upper_iff c 'C' 'c' (by decide) (by decide)]
    rw [toLower_eq_lower_iff c 'C' 'c' (by decide) (by decide)]

theorem pyCapitalize_eq_card_iff (s : String) :
    pyCapitalize s = "Card" ↔ pyLower s = "card" := by
  obtain ⟨data⟩ := s
  cases data with
  | nil => decide
  | cons c r =>
    rw [show pyCapitalize ⟨c :: r⟩ = ⟨Char.toUpper c :: r.map Char.toLower⟩ from rfl]
    rw [show pyLower ⟨c :: r⟩ = ⟨Char.toLower c :: r.map Char.toLower⟩ from rfl]
    rw [show ("Card" : String) = ⟨['C', 'a', 'r', 'd']⟩ from rfl]
    rw [show ("card" : String) = ⟨['c', 'a', 'r', 'd']⟩ from rfl]
    simp only [String.ext_iff, List.cons.injEq]
    rw [toUpper_eq_upper_iff c 'C' 'c' (by decide) (by decide)]
    rw [toLower_eq_lower_iff c 'C' 'c' (by decide) (by decide)]

theorem pyCapitalize_eq_qr_iff (s : String) :
    pyCapitalize s = "Qr" ↔ pyLower s = "qr" := by
  obtain ⟨data⟩ := s
  cases data with
  | nil => decide
  | cons c r =>
    rw [show pyCapitalize ⟨c :: r⟩ = ⟨Char.toUpper c :: r.map Char.toLower⟩ from rfl]
    rw [show pyLower ⟨c :: r⟩ = ⟨Char.toLower c :: r.map Char.toLower⟩ from rfl]
    rw [show ("Qr" : String) = ⟨['Q', 'r']⟩ from rfl]
    rw [show ("qr" : String) = ⟨['q', 'r']⟩ from rfl]
    simp only [String.ext_iff, List.cons.injEq]
    rw [toUpper_eq_upper_iff c 'Q' 'q' (by decide) (by decide)]
    rw [toLower_eq_lower_iff c 'Q' 'q' (by decide) (by decide)]

theorem pyCapitalize_ne_QR (s : String) : pyCapitalize s ≠ "QR" := by
  obtain ⟨data⟩ := s
  cases data with
  | nil => decide
  | cons c r =>
    intro h
    rw [show pyCapitalize ⟨c :: r⟩ = ⟨Char.toUpper c :: r.map Char.toLower⟩ from rfl] at h
    rw [show ("QR" : String) = ⟨['Q', 'R']⟩ from rfl] at h
    simp only [String.ext_iff, List.cons.injEq] at h
    obtain ⟨-, h2⟩ := h
    cases r with
    | nil => simp at h2
    | cons d t =>
      simp only [List.map_cons, List.cons.injEq] at h2
      exact toLower_ne_upper d 'R' (by decide) h2.1

/-- C4: payment-method normalization in `create_sale`.  A case-insensitive
match of `cash`/`card`/`qr` is stored exactly as `Cash`/`Card`/`QR`; any
other string is rejected with a 400. -/
theorem createSale_payment_method_normalization (s : String) :
    (pyLower s = "cash" → normalizePaymentMethod s = .ok "Cash")
    ∧ (pyLower s = "card" → normalizePaymentMethod s = .ok "Card")
    ∧ (pyLower s = "qr" → normalizePaymentMethod s = .ok "QR")
    ∧ (pyLower s ≠ "cash" → pyLower s ≠ "card" → pyLower s ≠ "qr" →
        normalizePaymentMethod s = .error ⟨400, "วิธีการชำระเงินไม่ถูกต้อง"⟩) := by
  refine ⟨?_, ?_, ?_, ?_⟩
  · intro h
    have hc := (pyCapitalize_eq_cash_iff s).mpr h
    simp only [normalizePaymentMethod]
    rw [hc]
    rfl
  · intro h
    have hc := (pyCapitalize_eq_card_iff s).mpr h
    simp only [normalizePaymentMethod]
    rw [hc]
    rfl
  · intro h
    have hc := (pyCapitalize_eq_qr_iff s).mpr h
    simp only [normalizePaymentMethod]
    rw [hc]
    rfl
  · intro h1 h2 h3
    simp only [normalizePaymentMethod]
    by_cases hq : pyCapitalize s = "Qr"
    · exact absurd ((pyCapitalize_eq_qr_iff s).mp hq) h3
    · rw [if_neg hq]
      rw [if_neg ?hcond]
      case hcond =>
        rintro (h | h | h)
        · exact h1 ((pyCapitalize_eq_cash_iff s).mp h)
        · exact h2 ((pyCapitalize_eq_card_iff s).mp h)
        · exact pyCapitalize_ne_QR s h

/-- C4 witness: `"qR"` normalizes to `QR`; `"visa"` is rejected. -/
theorem createSale_payment_method_normalization_witness :
    normalizePaymentMethod "qR" = .ok "QR"
    ∧ normalizePaymentMethod "visa" = .error ⟨400, "วิธีการชำระเงินไม่ถูกต้อง"⟩ :=
  ⟨(createSale_payment_method_normalization "qR").2.2.1 (by decide),
   (createSale_payment_method_normalization "visa").2.2.2
     (by decide) (by decide) (by decide)⟩

/-- The product's current price, or 0 when the product is absent (the
fallback is never reached on a success path). -/
def priceOrZero (db : DB) (pid : Nat) : ℚ :=
  ((findProduct db pid).map (fun p => p.price)).getD 0

theorem buildSaleItems_spec (db : DB) (sid : Nat) :
    ∀ (items : List SaleItemCreate) (nid : Nat) (rows : List SaleItemRow),
      buildSaleItems db sid nid items = .ok rows →
      rows.map (fun r => (r.product_id, r.unit_price))
        = items.map (fun it =>
            (it.product_id, it.unit_price.getD (priceOrZero db it.product_id)))
      ∧ ∀ it ∈ items, (findProduct db it.product_id).isSome := by
  intro items
  induction items with
  | nil =>
    intro nid rows h
    simp only [buildSaleItems] at h
    cases h
    simp
  | cons it rest ih =>
    intro nid rows h
    simp only [buildSaleItems] at h
    cases hfind : findProduct db it.product_id with
    | none => rw [hfind] at h; cases h
    | some p =>
      rw [hfind] at h
      cases hrec : buildSaleItems db sid (nid + 1) rest with
      | error e => rw [hrec] at h; cases h
      | ok rows' =>
        rw [hrec] at h
        cases h
        obtain ⟨ih1, ih2⟩ := ih (nid + 1) rows' hrec
        constructor
        · simp only [List.map_cons, ih1]
          have : priceOrZero db it.product_id = p.price := by
            simp [priceOrZero, hfind]
          rw [this]
        · intro x hx
          rcases List.mem_cons.mp hx with rfl | hx'
          · simp [hfind]
          · exact ih2 x hx'

/-- C9: whenever sale-item creation succeeds — inline in `create_sale` or
via `add_sale_item` — an omitted `unit_price` is replaced by the referenced
product's current price, and a supplied `unit_price` is stored as given. -/
theorem saleItem_unit_price_defaults_to_product_price :
    (∀ (db : DB) (now : ℚ) (inp : SaleCreate) (db' : DB) (s : SaleRow),
      create_sale db now inp = .ok (db', s) →
      (db'.sale_items.drop db.sale_items.length).map
          (fun r => (r.product_id, r.unit_price))
        = inp.items.map (fun it =>
            (it.product_id, it.unit_price.getD (priceOrZero db it.product_id)))
      ∧ ∀ it ∈ inp.items, (findProduct db it.product_id).isSome)
    ∧ (∀ (db : DB) (sid : Nat) (it : SaleItemCreate) (db' : DB) (r : SaleItemRow),
      add_sale_item db sid it = .ok (db', r) →
      r.unit_price = it.unit_price.getD (priceOrZero db it.product_id)
      ∧ db'.sale_items = db.sale_items ++ [r]) := by
  constructor
  · intro db now inp db' s h
    simp only [create_sale] at h
    cases hn : normalizePaymentMethod inp.payment_method with
    | error e => rw [hn] at h; cases h
    | ok pm =>
      rw [hn] at h
      cases hb : buildSaleItems db db.next_sale_id db.next_sale_item_id inp.items with
      | error e => rw [hb] at h; cases h
      | ok rows =>
        rw [hb] at h
        cases h
        obtain ⟨h1, h2⟩ := buildSaleItems_spec db db.next_sale_id inp.items
          db.next_sale_item_id rows hb
        refine ⟨?_, h2⟩
        rw [List.drop_left, h1]
  · intro db sid it db' r h
    simp only [add_sale_item] at h
    cases h1 : findSale db sid with
    | none => rw [h1] at h; cases h
    | some sale =>
      rw [h1] at h
      cases h2 : findProduct db it.product_id with
      | none => rw [h2] at h; cases h
      | some product =>
        rw [h2] at h
        cases h3 : db.sale_items.find?
            (fun si => si.sale_id == sid && si.product_id == it.product_id) with
        | some dup => rw [h3] at h; cases h
        | none =>
          rw [h3] at h
          cases h
          constructor
          · simp [priceOrZero, h2]
          · rfl

/-! ### Concrete stores used to evaluate the handlers -/

/-- A product with id 1 and price 50. -/
def prodCola : ProductRow :=
  { product_id := 1, name := "Cola", category_id := none, sku := none,
    price := 50, reorder_level := 10 }

/-- A store holding exactly that product. -/
def dbC1 : DB := { products := [prodCola] }

/-- A sale-creation request with two items for the same `product_id` 1. -/
def saleDupInput : SaleCreate :=
  { sale_datetime := some 20250101, payment_method := "cash", notes := none,
    items := [{ product_id := 1, quantity := 1, unit_price := none, discount := 0 },
              { product_id := 1, quantity := 2, unit_price := none, discount := 0 }] }

/-- The sale row `create_sale` produces for `saleDupInput`. -/
def saleRowC1 : SaleRow :=
  { sale_id := 1, sale_datetime := 20250101, total_amount := 0,
    payment_method := "Cash", notes := none }

/-- The store after `create_sale dbC1 0 saleDupInput`. -/
def dbC1after : DB :=
  { dbC1 with
      sales := [saleRowC1]
      sale_items :=
        [{ sale_item_id := 1, sale_id := 1, product_id := 1,
           quantity := 1, unit_price := 50, discount := 0 },
         { sale_item_id := 2, sale_id := 1, product_id := 1,
           quantity := 2, unit_price := 50, discount := 0 }]
      next_sale_id := 2
      next_sale_item_id := 3 }

/-- C1 (code bug): `create_sale` performs no duplicate-product check over
the submitted item list (sales.py lines 36-58 validate only existence), so
a request with two items for the same `product_id` succeeds and persists
the sale together with both duplicate item rows — it does not fail with a
client error, and rows do persist.  The duplicate check exists only in
`add_sale_item` (sales.py lines 212-221). -/
theorem createSale_accepts_duplicate_product_items :
    create_sale dbC1 0 saleDupInput = .ok (dbC1after, saleRowC1)
    ∧ dbC1after.sale_items.map (fun r => r.product_id) = [1, 1]
    ∧ dbC1after.sales = [saleRowC1] :=
  ⟨rfl, rfl, rfl⟩

/-- A sale-creation request exercising both unit-price paths: one item
with `unit_price` omitted, one with `unit_price` supplied as 30. -/
def inpC9 : SaleCreate :=
  { sale_datetime := none, payment_method := "CARD", notes := some "w",
    items := [{ product_id := 1, quantity := 1, unit_price := none, discount := 0 },
              { product_id := 1, quantity := 2, unit_price := some 30, discount := 0 }] }

/-- The sale row `create_sale` produces for `inpC9` at time 7. -/
def saleRowC9 : SaleRow :=
  { sale_id := 1, sale_datetime := 7, total_amount := 0,
    payment_method := "Card", notes := some "w" }

/-- The store after `create_sale dbC1 7 inpC9`. -/
def dbC9after : DB :=
  { dbC1 with
      sales := [saleRowC9]
      sale_items :=
        [{ sale_item_id := 1, sale_id := 1, product_id := 1,
           quantity := 1, unit_price := 50, discount := 0 },
         { sale_item_id := 2, sale_id := 1, product_id := 1,
           quantity := 2, unit_price := 30, discount := 0 }]
      next_sale_id := 2
      next_sale_item_id := 3 }

/-- A store with the product and one sale, for `add_sale_item`. -/
def dbAdd : DB := { products := [prodCola], sales := [saleRowC1] }

/-- The row `add_sale_item dbAdd 1` creates for an item without
`unit_price`. -/
def rowAdd : SaleItemRow :=
  { sale_item_id := 1, sale_id := 1, product_id := 1, quantity := 3,
    unit_price := 50, discount := 0 }

/-- C9 witness: on the concrete store, the omitted `unit_price` is stored
as the product's price 50 and the supplied one as 30, and `add_sale_item`
also defaults to 50. -/
theorem saleItem_unit_price_defaults_witness :
    (dbC9after.sale_items.drop dbC1.sale_items.length).map
        (fun r => (r.product_id, r.unit_price)) = [(1, 50), (1, 30)]
    ∧ (∀ it ∈ inpC9.items, (findProduct dbC1 it.product_id).isSome)
    ∧ rowAdd.unit_price = 50 := by
  have h := saleItem_unit_price_defaults_to_product_price.1 dbC1 7 inpC9
    dbC9after saleRowC9 (by rfl)
  have h2 := saleItem_unit_price_defaults_to_product_price.2 dbAdd 1
    { product_id := 1, quantity := 3, unit_price := none, discount := 0 }
    { dbAdd with sale_items := [rowAdd], next_sale_item_id := 2 }
    rowAdd (by rfl)
  refine ⟨?_, h.2, ?_⟩
  · rw [h.1]; rfl
  · rw [h2.1]; rfl

theorem validateStockInProducts_eq (db : DB) (items : List StockInItemCreate) :
    validateStockInProducts db items
      = (items.find? (fun x => (findProduct db x.product_id).isNone)).map
          (fun it => (⟨404, "ไม่พบสินค้า ID: " ++ toString it.product_id⟩ : Err)) := by
  induction items with
  | nil => rfl
  | cons it rest ih =>
    cases h : (findProduct db it.product_id).isNone with
    | true => simp [validateStockInProducts, List.find?, h]
    | false => simp [validateStockInProducts, List.find?, h, ih]

/-- C3: `create_stock_in` pre-validates every item's product before
inserting anything.  If some item references a missing product, the call
fails with a 404 naming the first such product and returns no new store
state (nothing persists); if all products exist, the creation succeeds. -/
theorem createStockIn_prevalidates_products :
    (∀ (db : DB) (now : ℚ) (inp : StockInCreate) (it : StockInItemCreate),
      inp.items.find? (fun x => (findProduct db x.product_id).isNone) = some it →
      create_stock_in db now inp
        = .error ⟨404, "ไม่พบสินค้า ID: " ++ toString it.product_id⟩)
    ∧ (∀ (db : DB) (now : ℚ) (inp : StockInCreate),
      inp.items.find? (fun x => (findProduct db x.product_id).isNone) = none →
      ∃ (db' : DB) (si : StockInRow),
        create_stock_in db now inp = .ok (db', si)) := by
  constructor
  · intro db now inp it h
    simp only [create_stock_in, validateStockInProducts_eq, h, Option.map_some']
  · intro db now inp h
    simp only [create_stock_in, validateStockInProducts_eq, h, Option.map_none']
    exact ⟨_, _, rfl⟩

/-- A stock-in request whose only item references the absent product 5. -/
def stockInMissing : StockInCreate :=
  { stock_in_date := none, ref_no := none, notes := none,
    items := [{ product_id := 5, quantity := 1, unit_cost := 2 }] }

/-- A stock-in request whose only item references the existing product 1. -/
def stockInGood : StockInCreate :=
  { stock_in_date := none, ref_no := some "PO-1", notes := none,
    items := [{ product_id := 1, quantity := 4, unit_cost := 20 }] }

/-- C3 witness: on an empty store the request naming product 5 fails with
the 404 naming product 5; on the store holding product 1 it succeeds. -/
theorem createStockIn_prevalidates_witness :
    create_stock_in {} 0 stockInMissing = .error ⟨404, "ไม่พบสินค้า ID: 5"⟩
    ∧ ∃ (db' : DB) (si : StockInRow),
        create_stock_in dbC1 0 stockInGood = .ok (db', si) :=
  ⟨createStockIn_prevalidates_products.1 {} 0 stockInMissing
      { product_id := 5, quantity := 1, unit_cost := 2 } (by rfl),
   createStockIn_prevalidates_products.2 dbC1 0 stockInGood (by rfl)⟩

/-- A creation request with a non-positive price and omitted
`reorder_level`. -/
def prodNegInput : ProductCreateInput :=
  { name := "Broken", category_id := none, sku := none, price := -5,
    reorder_level := none }

/-- The product row the handler creates for `prodNegInput`. -/
def prodNegRow : ProductRow :=
  { product_id := 1, name := "Broken", category_id := none, sku := none,
    price := -5, reorder_level := 10 }

/-- C5 (code bug): the `ProductCreate` pydantic model declares
`price: float` with no `gt=0` constraint (request_models.py line 12, unlike
`ProductUpdate` on line 19) and `create_product` never inspects `price`, so
a creation request with `price = -5` is accepted and the product row with a
non-positive price is persisted.  The `reorder_level` default of 10 does
hold. -/
theorem createProduct_accepts_nonpositive_price :
    parseProductCreate prodNegInput
      = { name := "Broken", category_id := none, sku := none, price := -5,
          reorder_level := 10 }
    ∧ create_product {} (parseProductCreate prodNegInput)
      = .ok ({ products := [prodNegRow], next_product_id := 2 }, prodNegRow)
    ∧ prodNegRow.price ≤ 0
    ∧ prodNegRow.reorder_level = 10 :=
  ⟨rfl, rfl, by norm_num [prodNegRow], rfl⟩

theorem total_pages_eq_ceil (t l : Nat) (hl : 0 < l) :
    (t + l - 1) / l = ⌈(t : ℚ) / (l : ℚ)⌉₊ := by
  rcases Nat.eq_zero_or_pos t with ht | ht
  · subst ht
    simp [Nat.div_eq_of_lt (by omega : l - 1 < l)]
  · have h1 : t + l - 1 = (t - 1) + l := by omega
    have key : (t + l - 1) / l = (t - 1) / l + 1 := by
      rw [h1, Nat.add_div_right _ hl]
    have hd : (t - 1) / l * l + (t - 1) % l = t - 1 := Nat.div_add_mod' (t - 1) l
    have hm : (t - 1) % l < l := Nat.mod_lt _ hl
    have hlq : (0 : ℚ) < (l : ℚ) := by exact_mod_cast hl
    symm
    rw [Nat.ceil_eq_iff (by rw [key]; exact Nat.succ_ne_zero _ : (t + l - 1) / l ≠ 0)]
    constructor
    · rw [lt_div_iff₀ hlq]
      have hnat : ((t + l - 1) / l - 1) * l < t := by
        rw [key, Nat.add_sub_cancel]
        have := Nat.div_mul_le_self (t - 1) l
        omega
      exact_mod_cast hnat
    · rw [div_le_iff₀ hlq]
      have hnat : t ≤ (t + l - 1) / l * l := by
        rw [key, Nat.succ_mul]
        omega
      exact_mod_cast hnat

/-- C2: for every page ≥ 1 and limit in 1..100 and any filtered row list,
the pagination envelope satisfies `total_pages = ceil(total/limit)`,
`has_next = (page < total_pages)`, `has_prev = (page > 1)` and
`items.length ≤ limit`. -/
theorem pagination_envelope_invariants {α : Type} (rows : List α)
    (page limit : Nat) (hp : 1 ≤ page) (hl : 1 ≤ limit) (hl100 : limit ≤ 100) :
    (paginate rows page limit).total_pages
      = ⌈((paginate rows page limit).total : ℚ) / (limit : ℚ)⌉₊
    ∧ ((paginate rows page limit).has_next = true
        ↔ page < (paginate rows page limit).total_pages)
    ∧ ((paginate rows page limit).has_prev = true ↔ 1 < page)
    ∧ (paginate rows page limit).items.length ≤ limit := by
  refine ⟨?_, ?_, ?_, ?_⟩
  · simpa [paginate] using total_pages_eq_ceil rows.length limit (by omega)
  · simp [paginate]
  · simp [paginate]
  · simp only [paginate]
    exact List.length_take_le limit _

/-- C2 witness: the envelope invariants evaluated for three rows, page 2,
limit 2. -/
theorem pagination_envelope_invariants_witness :
    1 ≤ (2 : Nat)
    ∧ ((paginate [0, 1, 2] 2 2).total_pages
        = ⌈((paginate [0, 1, 2] 2 2).total : ℚ) / ((2 : Nat) : ℚ)⌉₊
      ∧ ((paginate [0, 1, 2] 2 2).has_next = true
          ↔ 2 < (paginate [0, 1, 2] 2 2).total_pages)
      ∧ ((paginate [0, 1, 2] 2 2).has_prev = true ↔ 1 < 2)
      ∧ (paginate [0, 1, 2] 2 2).items.length ≤ 2) :=
  ⟨by decide,
   pagination_envelope_invariants [0, 1, 2] 2 2 (by decide) (by decide)
     (by decide)⟩

theorem paginate_if_error_iff {α : Type} (rows : List α) (page limit : Nat)
    (e : Err) :
    ((if (paginate rows page limit).items.isEmpty ∧ page = 1
        then (Except.error e : Except Err (Paginated α))
        else Except.ok (paginate rows page limit)) = Except.error e)
      ↔ (page = 1 ∧ (rows.drop ((page - 1) * limit)).take limit = []) := by
  by_cases h : (paginate rows page limit).items.isEmpty ∧ page = 1
  · rw [if_pos h]
    refine ⟨fun _ => ⟨h.2, ?_⟩, fun _ => rfl⟩
    have h1 := h.1
    simpa [paginate, List.isEmpty_iff] using h1
  · rw [if_neg h]
    constructor
    · intro hc
      exact absurd hc (by simp)
    · rintro ⟨h1, h2⟩
      exact absurd ⟨by simpa [paginate, List.isEmpty_iff] using h2, h1⟩ h

theorem paginate_if_ok_of_page_gt {α : Type} (rows : List α) (page limit : Nat)
    (e : Err) (hp : 1 < page) :
    (if (paginate rows page limit).items.isEmpty ∧ page = 1
        then (Except.error e : Except Err (Paginated α))
        else Except.ok (paginate rows page limit))
      = Except.ok (paginate rows page limit) := by
  rw [if_neg]
  rintro ⟨-, h1⟩
  omega

/-- C6: on the category and product list endpoints, the NotFound error is
raised exactly when the requested page is 1 and that page's slice is empty;
any page > 1 whose slice is empty succeeds with an empty item list. -/
theorem list_notFound_iff_page1_empty :
    (∀ (db : DB) (p : CategorySearchParams),
      get_all_categories db p = .error ⟨404, "ไม่พบหมวดหมู่"⟩
        ↔ (p.page = 1 ∧ categorySlice db p = []))
    ∧ (∀ (db : DB) (p : CategorySearchParams),
      1 < p.page → categorySlice db p = [] →
      ∃ env, get_all_categories db p = .ok env ∧ env.items = [])
    ∧ (∀ (db : DB) (p : ProductSearchParams),
      get_all_products db p = .error ⟨404, "ไม่พบสินค้า"⟩
        ↔ (p.page = 1 ∧ productSlice db p = []))
    ∧ (∀ (db : DB) (p : ProductSearchParams),
      1 < p.page → productSlice db p = [] →
      ∃ env, get_all_products db p = .ok env ∧ env.items = []) := by
  refine ⟨?_, ?_, ?_, ?_⟩
  · intro db p
    exact paginate_if_error_iff (categoryOrderedRows db p.search) p.page p.limit _
  · intro db p hp hsl
    exact ⟨paginate (categoryOrderedRows db p.search) p.page p.limit,
      paginate_if_ok_of_page_gt _ _ _ _ hp, hsl⟩
  · intro db p
    exact paginate_if_error_iff (productOrderedRows db p) p.page p.limit _
  · intro db p hp hsl
    exact ⟨paginate (productOrderedRows db p) p.page p.limit,
      paginate_if_ok_of_page_gt _ _ _ _ hp, hsl⟩

/-- C6 witness: page 1 of an empty category store is the 404; page 2 of an
empty product filter result is a success with an empty item list. -/
theorem list_notFound_iff_page1_empty_witness :
    get_all_categories {} { page := 1, limit := 10, search := none }
      = .error ⟨404, "ไม่พบหมวดหมู่"⟩
    ∧ ∃ env, get_all_products dbC1
        { page := 2, limit := 10, search := none, category_id := none,
          min_price := none, max_price := none } = .ok env
        ∧ env.items = [] :=
  ⟨(list_notFound_iff_page1_empty.1 {}
      { page := 1, limit := 10, search := none }).mpr ⟨rfl, rfl⟩,
   list_notFound_iff_page1_empty.2.2.2 dbC1
     { page := 2, limit := 10, search := none, category_id := none,
       min_price := none, max_price := none } (by decide) (by rfl)⟩

/-- An inventory movement with id 1 and type OPENING. -/
def mov1 : MovementRow :=
  { movement_id := 1, product_id := 1, movement_type := "OPENING",
    quantity := 5, unit_cost := none, sale_price := none,
    sale_item_id := none, stock_in_item_id := none, movement_date := 0 }

/-- A store holding exactly that movement. -/
def dbMov : DB := { movements := [mov1] }

/-- C7 counterexample: `""` is a supplied movement_type whose uppercase
form is not in the allowed set, yet the patch does not fail with a client
error — Python's truthiness test `if movement_update.movement_type:` skips
the validation, and the call succeeds returning the unchanged movement. -/
theorem movementPatch_empty_string_not_rejected :
    pyUpper "" ∉ allowedMovementTypes
    ∧ update_inventory_movement_type dbMov 1 (some "") = .ok (dbMov, mov1) :=
  ⟨by decide, rfl⟩

/-- C7 (amended): for an existing movement and a supplied NON-empty
movement_type: when its uppercase form is outside {OPENING, STOCK_IN, SALE}
the patch fails with the 400 listing the allowed values and returns no new
store state; when it is a case-variant of an allowed value the patch
succeeds, stores the uppercased value, and modifies no other field of the
movement and no other row.  (A falsy value — absent or `""` — is instead a
no-op success; see C10.) -/
theorem movementPatch_validation_amended (db : DB) (mid : Nat)
    (mv : MovementRow) (s : String) (hfind : findMovement db mid = some mv)
    (hne : s ≠ "") :
    update_inventory_movement_type db mid (some s)
      = if pyUpper s ∈ allowedMovementTypes then
          .ok ({ db with movements := (db.movements.map
                  (fun m => if m.movement_id == mid
                    then { mv with movement_type := pyUpper s } else m)) },
               { mv with movement_type := pyUpper s })
        else .error movementTypeErr := by
  simp only [update_inventory_movement_type, hfind]
  have ht : truthyStr (some s) = true := by simp [truthyStr, hne]
  rw [if_pos ht]
  simp only [Option.getD_some]

/-- C7 witness: on the concrete store, `"sale"` is stored as `"SALE"` with
every other field unchanged, and `"bogus"` is rejected with the 400. -/
theorem movementPatch_validation_amended_witness :
    update_inventory_movement_type dbMov 1 (some "sale")
      = .ok ({ dbMov with movements := [{ mov1 with movement_type := "SALE" }] },
             { mov1 with movement_type := "SALE" })
    ∧ update_inventory_movement_type dbMov 1 (some "bogus")
      = .error movementTypeErr := by
  have h1 := movementPatch_validation_amended dbMov 1 mov1 "sale" rfl
    (by decide)
  have h2 := movementPatch_validation_amended dbMov 1 mov1 "bogus" rfl
    (by decide)
  refine ⟨?_, ?_⟩
  · rw [h1]; rfl
  · rw [h2]; rfl

/-- C10: with an existing movement, a falsy supplied movement_type (absent,
`None`, or the empty string) skips enum validation entirely and the patch
succeeds as a no-op: the store and every field of the movement are
unchanged. -/
theorem movementPatch_falsy_is_noop (db : DB) (mid : Nat) (mv : MovementRow)
    (mt : Option String) (hfind : findMovement db mid = some mv)
    (hfalsy : mt = none ∨ mt = some "") :
    update_inventory_movement_type db mid mt = .ok (db, mv) := by
  rcases hfalsy with rfl | rfl
  · simp [update_inventory_movement_type, hfind, truthyStr]
  · simp [update_inventory_movement_type, hfind, truthyStr]

/-- C10 witness: both falsy forms are no-op successes on the concrete
store. -/
theorem movementPatch_falsy_is_noop_witness :
    update_inventory_movement_type dbMov 1 none = .ok (dbMov, mov1)
    ∧ update_inventory_movement_type dbMov 1 (some "") = .ok (dbMov, mov1) :=
  ⟨movementPatch_falsy_is_noop dbMov 1 mov1 none rfl (Or.inl rfl),
   movementPatch_falsy_is_noop dbMov 1 mov1 (some "") rfl (Or.inr rfl)⟩

/-- C8: a profitability summary over filters matching zero rows is the
all-zero summary (`total_sales = 0`, all monetary fields 0), and the margin
division is guarded: every successful summary either has strictly positive
revenue or a margin equal to 0 — the division never runs with a
non-positive denominator. -/
theorem profitability_summary_zero_and_margin_guard :
    (∀ (db : DB) (sd ed : Option String),
      profitFilteredRows db sd ed = .ok [] →
      get_profitability_summary db sd ed
        = .ok { total_sales := 0, total_revenue := 0, total_cogs := 0,
                total_gross_profit := 0, average_profit_margin := 0,
                top_profitable_products := none })
    ∧ (∀ (db : DB) (sd ed : Option String) (s : ProfitabilitySummary),
      get_profitability_summary db sd ed = .ok s →
      0 < s.total_revenue ∨ s.average_profit_margin = 0) := by
  constructor
  · intro db sd ed h
    simp only [get_profitability_summary, h]
    rfl
  · intro db sd ed s h
    simp only [get_profitability_summary] at h
    cases hrows : profitFilteredRows db sd ed with
    | error e => rw [hrows] at h; simp at h
    | ok rows =>
      rw [hrows] at h
      dsimp only at h
      by_cases hlen : rows.length = 0
      · rw [if_pos hlen] at h
        cases h
        right
        rfl
      · rw [if_neg hlen] at h
        cases h
        by_cases hrev : 0 < (rows.map (fun r => r.total_revenue)).sum
        · left
          simpa using hrev
        · right
          simp [hrev]

/-- A sale-item row of the profitability view with revenue 10 and gross
profit 6. -/
def profitRow1 : ProfitRow :=
  { sale_item_id := 1, sale_id := 1, sale_datetime := 20250101,
    product_id := 1, product_name := "Cola", quantity := 2, unit_price := 5,
    discount := 0, total_revenue := 10, average_cost_at_sale := 2,
    total_cogs := 4, gross_profit := 6 }

/-- A store whose profitability view holds exactly that row. -/
def dbProfit : DB := { profit_view := [profitRow1] }

/-- The summary over `dbProfit` without date filters. -/
def sumProfit1 : ProfitabilitySummary :=
  { total_sales := 1, total_revenue := 10, total_cogs := 4,
    total_gross_profit := 6, average_profit_margin := 60,
    top_profitable_products := some [{ name := "Cola", total_profit := 6 }] }

/-- C8 witness: the empty store yields the all-zero summary, and both
summaries satisfy the margin guard. -/
theorem profitability_summary_witness :
    get_profitability_summary {} none none
      = .ok { total_sales := 0, total_revenue := 0, total_cogs := 0,
              total_gross_profit := 0, average_profit_margin := 0,
              top_profitable_products := none }
    ∧ (0 < (⟨0, 0, 0, 0, 0, none⟩ : ProfitabilitySummary).total_revenue
        ∨ (⟨0, 0, 0, 0, 0, none⟩ : ProfitabilitySummary).average_profit_margin = 0)
    ∧ (0 < sumProfit1.total_revenue
        ∨ sumProfit1.average_profit_margin = 0) :=
  ⟨profitability_summary_zero_and_margin_guard.1 {} none none rfl,
   profitability_summary_zero_and_margin_guard.2 {} none none _
     (profitability_summary_zero_and_margin_guard.1 {} none none rfl),
   profitability_summary_zero_and_margin_guard.2 dbProfit none none
     sumProfit1 (by
       simp only [get_profitability_summary, profitFilteredRows,
         applyStartDateFilter, applyEndDateFilter, dbProfit]
       norm_num [pyRound2, topProducts, profitGroupKeys, groupProfit,
         sortByProfitDesc, insertByProfitDesc, profitRow1, sumProfit1])⟩
